import Mathlib

/-!
Verification of the Metropolis / variational-Monte-Carlo library `lib.py`.

Real numbers are modeled as exact rationals (`ℚ`).  Randomness is modeled by
explicit oracle streams: `nrm : Nat → Nat → ℚ` gives the standard-normal draw
for coordinate `j` of iteration `i` (so `np.random.normal(loc, scale)` is
`loc + scale * nrm i j` componentwise), and `u : Nat → ℚ` gives the uniform
`[0,1)` draw of iteration `i` (`np.random.rand(1)`).

Python-level failures (TypeError from a wrong-arity call, ZeroDivisionError,
IndexError, NameError, AttributeError) are modeled with `Except PyErr`.
-/

/-- Python exception classes that the modeled code can raise. -/
inductive PyErr
  | typeError
  | zeroDivisionError
  | indexError
  | nameError
  | attributeError
deriving DecidableEq

/-- A configuration-space point: `np.ndarray(dim)` of reals, modeled as `List ℚ`. -/
abbrev Config := List ℚ

/-- A Python callable `prob_density(r, alpha)`.  `strict` records whether the
second positional parameter `alpha` lacks a default value (the documented
contract `function(r, alpha)` is a strict two-parameter function); `f` is the
underlying mathematical function, receiving `none` when the call omits `alpha`. -/
structure Density where
  strict : Bool
  f : Config → Option (List ℚ) → ℚ

/-- Python call semantics for a `Density`: calling with one positional argument
(as `lib.py` line 141 does: `prob_density(curr_point)`) raises `TypeError`
when the second parameter has no default. -/
def callDensity (pd : Density) (r : Config) (a : Option (List ℚ)) : Except PyErr ℚ :=
  match a with
  | some alpha => .ok (pd.f r (some alpha))
  | none => if pd.strict then .error .typeError else .ok (pd.f r none)

/-- Python scalar division: raises `ZeroDivisionError` on a zero denominator. -/
def pydiv (a b : ℚ) : Except PyErr ℚ :=
  if b = 0 then .error .zeroDivisionError else .ok (a / b)

/-- Python `&` applied to two floats: unsupported operand types, raises
`TypeError` (this is what `abs(rate_av - 0.5)>tol & (rate_av - 0.5)>0`
evaluates, since `&` binds tighter than the comparisons). -/
def pyFloatAnd (a b : ℚ) : Except PyErr ℚ := .error .typeError

/-- Componentwise `np.random.normal(loc=curr, scale=sigma)` starting at
coordinate index `j`: each coordinate gets an independent Gaussian
perturbation `sigma * z j`. -/
def trial_move_from (sigma : ℚ) (z : Nat → ℚ) : Nat → Config → Config
  | _, [] => []
  | j, c :: cs => (c + sigma * z j) :: trial_move_from sigma z (j + 1) cs

/-- The trial move of `random_walker`:
`next_point = np.random.normal(loc=curr_point, scale=tm_sigma)`. -/
def trial_move (curr : Config) (sigma : ℚ) (z : Nat → ℚ) : Config :=
  trial_move_from sigma z 0 curr

/-- Line 141 of `lib.py`, exactly as written:
`rate = prob_density(next_point,alpha)/prob_density(curr_point)` —
the numerator is called with both arguments, the denominator with only one. -/
def acceptance_rate (pd : Density) (alpha : List ℚ) (next_pt curr_pt : Config) :
    Except PyErr ℚ :=
  match callDensity pd next_pt (some alpha) with
  | .error e => .error e
  | .ok num =>
    match callDensity pd curr_pt none with
    | .error e => .error e
    | .ok den => pydiv num den

/-- One iteration of the `random_walker` loop body (lines 140-146): draw the
trial move, compute the acceptance rate, accept iff the uniform draw `u`
satisfies `u <= rate`; the returned point is the post-decision current point,
which the loop records as `steps[i]`. -/
def walk_iter (pd : Density) (alpha : List ℚ) (sigma : ℚ) (curr : Config)
    (z : Nat → ℚ) (u : ℚ) : Except PyErr Config :=
  match acceptance_rate pd alpha (trial_move curr sigma z) curr with
  | .error e => .error e
  | .ok rate => .ok (if u ≤ rate then trial_move curr sigma z else curr)

/-- The `for i in range(N_steps)` loop of `random_walker`: every iteration
overwrites row `i` with the post-decision point, so the returned list is
exactly the list of post-decision points.  `k` is the current iteration
index (for the random streams), the last argument the remaining count. -/
def walk_loop (pd : Density) (alpha : List ℚ) (sigma : ℚ) (nrm : Nat → Nat → ℚ)
    (u : Nat → ℚ) : Config → Nat → Nat → Except PyErr (List Config)
  | _, _, 0 => .ok []
  | curr, k, n + 1 =>
    match walk_iter pd alpha sigma curr (nrm k) (u k) with
    | .error e => .error e
    | .ok p =>
      match walk_loop pd alpha sigma nrm u p (k + 1) n with
      | .error e => .error e
      | .ok rest => .ok (p :: rest)

/-- The walker `random_walker(prob_density, alpha, N_steps, dim, init_point,
tm_sigma)` (lines 136-148).  `steps = np.zeros([N_steps,dim]); steps[0] = init_point`
raises `IndexError` when `N_steps = 0`; otherwise every row is overwritten by
the loop (iteration `i = 0` included), so the rows are the post-decision
points.  The write `steps[0] = init_point` is therefore only visible through
the `N_steps = 0` failure. -/
def random_walker (prob_density : Density) (alpha : List ℚ) (N_steps dim : Nat)
    (init_point : Config) (tm_sigma : ℚ) (nrm : Nat → Nat → ℚ) (u : Nat → ℚ) :
    Except PyErr (List Config) :=
  if N_steps = 0 then .error .indexError
  else walk_loop prob_density alpha tm_sigma nrm u init_point 0 N_steps

/-- Initial-point sampling `rand_init_point(system_size, dim)` (lines 150-167):
`np.random.normal(scale=system_size, size=dim)` — `dim` independent draws
with mean zero and standard deviation `system_size`, modeled as
`system_size * z i` over a standard-normal oracle stream `z`. -/
def rand_init_point (system_size : ℚ) (dim : Nat) (z : Nat → ℚ) : Config :=
  (List.range dim).map (fun i => system_size * z i)

/-- The inner `for i in range(100)` batch of `find_optimal_tm_sigma`
(lines 176-181): accumulates the Metropolis ratio (not the acceptance
indicator) into `total_rate` and moves `curr_point` on acceptance. -/
def tune_batch (pd : Density) (alpha : List ℚ) (sigma : ℚ) (nrm : Nat → Nat → ℚ)
    (u : Nat → ℚ) : Config → ℚ → Nat → Nat → Except PyErr (Config × ℚ)
  | curr, total, _, 0 => .ok (curr, total)
  | curr, total, k, n + 1 =>
    match acceptance_rate pd alpha (trial_move curr sigma (nrm k)) curr with
    | .error e => .error e
    | .ok rate =>
      tune_batch pd alpha sigma nrm u
        (if u k ≤ rate then trial_move curr sigma (nrm k) else curr)
        (total + rate) (k + 1) n

/-- The `while iter <= Niter` loop of `find_optimal_tm_sigma` (lines 175-190).
After each 100-step batch it computes `rate_av = total_rate/100` (with
`total_rate` never reset) and evaluates
`abs(rate_av - 0.5)>tol & (rate_av - 0.5)>0`: since `&` binds tighter than
the comparisons, Python first evaluates `tol & (rate_av - 0.5)` on two
floats, which raises `TypeError`.  The (dead) continuation mirrors the
source: both adjustment branches assign `curr_tm_sigma = 0`, and the
`else: exit` branch is a no-op expression, so no branch stops the loop. -/
def tune_loop (pd : Density) (alpha : List ℚ) (nrm : Nat → Nat → ℚ)
    (u : Nat → ℚ) (tol : ℚ) : Config → ℚ → ℚ → Nat → Nat → Except PyErr ℚ
  | _, sigma, _, _, 0 => .ok sigma
  | curr, sigma, total, k, n + 1 =>
    match tune_batch pd alpha sigma nrm u curr total k 100 with
    | .error e => .error e
    | .ok (curr2, total2) =>
      match pyFloatAnd tol (total2 / 100 - 1 / 2) with
      | .error e => .error e
      | .ok w =>
        if |total2 / 100 - 1 / 2| > w ∧ w > 0 then
          tune_loop pd alpha nrm u tol curr2 0 total2 (k + 100) n
        else
          match pyFloatAnd tol (total2 / 100 - 1 / 2) with
          | .error e => .error e
          | .ok w2 =>
            if |total2 / 100 - 1 / 2| > w2 ∧ w2 < 0 then
              tune_loop pd alpha nrm u tol curr2 0 total2 (k + 100) n
            else
              tune_loop pd alpha nrm u tol curr2 sigma total2 (k + 100) n

/-- The tuner `find_optimal_tm_sigma(prob_density, alpha, dim, tm_sigma_init,
Niter, tol)` (lines 169-191): starts the chain at `np.zeros(dim)` with `total_rate = 0`
and runs `Niter` batches of 100 trial moves. -/
def find_optimal_tm_sigma (prob_density : Density) (alpha : List ℚ) (dim : Nat)
    (tm_sigma_init : ℚ) (Niter : Nat) (tol : ℚ) (nrm : Nat → Nat → ℚ)
    (u : Nat → ℚ) : Except PyErr ℚ :=
  tune_loop prob_density alpha nrm u tol (List.replicate dim 0) tm_sigma_init 0 0 Niter

/-- The integrator `MC_integration(E_local_f, prob_density, alpha, N_steps,
N_walkers, N_skip, L_start)` (lines 197-223): the body is a bare `return` — it returns `None`
for every input, performs no validation and raises nothing. -/
def MC_integration (E_local_f prob_density : Density) (alpha : List ℚ)
    (N_steps N_walkers N_skip : Nat) (L_start : ℚ) : Option (ℚ × ℚ) :=
  none

/-- Stub `scan_alpha(alpha_old, step)` (lines 272-291): the body ignores its
arguments and returns the integer `0`. -/
def scan_alpha (alpha_old step : List ℚ) : ℚ := 0

/-- Stub `steepest_descent(alpha_old, args)` (lines 294-313): the body ignores
its arguments and returns the integer `0`. -/
def steepest_descent (alpha_old args : List ℚ) : ℚ := 0

/-- The `Optimizer` class state: `__init__` stores `method`, `converged` and
`alpha` (and nothing else — in particular no attribute `args`). -/
structure Optimizer where
  method : String
  converged : Bool
  alpha : List ℚ

/-- Constructor `Optimizer.__init__(opt_args)` (lines 249-253). -/
def Optimizer.init_state (method : String) (init_alpha : List ℚ) : Optimizer :=
  ⟨method, false, init_alpha⟩

/-- Method `Optimizer.update_alpha(args)` (lines 255-269).  The `"scan"` branch
evaluates the undefined global name `step` (NameError); the
`"steepest_descent"` branch evaluates the missing attribute `self.args`
(AttributeError); any other method string falls into the `else` branch,
which only sets `converged = True`. -/
def Optimizer.update_alpha (o : Optimizer) : Except PyErr Optimizer :=
  if o.method = "scan" then .error .nameError
  else if o.method = "steepest_descent" then .error .attributeError
  else .ok ⟨o.method, true, o.alpha⟩

/-- The module-level example stub `prob_density(r, alpha)` (lines 62-81): a
strict two-parameter function that returns `prob = 0`. -/
def example_prob_density : Density := ⟨true, fun _ _ => 0⟩

/-- A well-behaved density for concrete runs: accepts the one-argument call
(`alpha` defaulted) and is constantly `1`. -/
def const_one_density : Density := ⟨false, fun _ _ => 1⟩

/-- A density that accepts the one-argument call and is constantly `0`. -/
def zero_density : Density := ⟨false, fun _ _ => 0⟩

/-- Oracle stream of standard-normal draws, all equal to `1`. -/
def unit_normals : Nat → Nat → ℚ := fun _ _ => 1

/-- Oracle stream of uniform draws, all equal to `0` (inside `[0,1)`). -/
def zero_uniforms : Nat → ℚ := fun _ => 0

/-- A single standard-normal coordinate stream, all draws equal to `1`. -/
def one_stream : Nat → ℚ := fun _ => 1

/-- An `Optimizer` whose method string is neither `"scan"` nor
`"steepest_descent"`. -/
def opt_example : Optimizer := ⟨"other", false, [1, 2]⟩

/-- Chain predicate: starting from `c`, each element of the list is either the
previous element (rejected proposal) or the trial move away from it drawn at
the corresponding iteration index. -/
def chainFrom (sigma : ℚ) (nrm : Nat → Nat → ℚ) : Nat → Config → List Config → Prop
  | _, _, [] => True
  | k, c, p :: rest =>
      (p = c ∨ p = trial_move c sigma (nrm k)) ∧ chainFrom sigma nrm (k + 1) p rest

/-- Helper: the Gaussian trial move preserves the number of coordinates. -/
theorem trial_move_from_length (sigma : ℚ) (z : Nat → ℚ) :
    ∀ (l : Config) (j : Nat), (trial_move_from sigma z j l).length = l.length
  | [], _ => rfl
  | c :: cs, j => by
      simp [trial_move_from, trial_move_from_length sigma z cs (j + 1)]

/-- Helper: the trial move away from `curr` has the same dimension as `curr`. -/
theorem trial_move_length (curr : Config) (sigma : ℚ) (z : Nat → ℚ) :
    (trial_move curr sigma z).length = curr.length :=
  trial_move_from_length sigma z curr 0

/-- Helper: a successful loop iteration returns either the unchanged current
point (rejection) or the trial move (acceptance). -/
theorem walk_iter_cases (pd : Density) (alpha : List ℚ) (sigma : ℚ) (curr : Config)
    (z : Nat → ℚ) (u : ℚ) (p : Config)
    (h : walk_iter pd alpha sigma curr z u = .ok p) :
    p = curr ∨ p = trial_move curr sigma z := by
  unfold walk_iter at h
  cases hr : acceptance_rate pd alpha (trial_move curr sigma z) curr with
  | error e => rw [hr] at h; cases h
  | ok rate =>
      rw [hr] at h
      dsimp only at h
      by_cases hc : u ≤ rate
      · rw [if_pos hc] at h
        right
        exact (Except.ok.inj h).symm
      · rw [if_neg hc] at h
        left
        exact (Except.ok.inj h).symm

/-- Helper: a successful run of the walker loop returns as many rows as
iterations, and the rows form a Metropolis chain from the starting point. -/
theorem walk_loop_spec (pd : Density) (alpha : List ℚ) (sigma : ℚ)
    (nrm : Nat → Nat → ℚ) (u : Nat → ℚ) :
    ∀ (n : Nat) (curr : Config) (k : Nat) (l : List Config),
      walk_loop pd alpha sigma nrm u curr k n = .ok l →
      l.length = n ∧ chainFrom sigma nrm k curr l
  | 0, curr, k, l, h => by
      simp only [walk_loop] at h
      cases h
      exact ⟨rfl, trivial⟩
  | n + 1, curr, k, l, h => by
      unfold walk_loop at h
      cases hp : walk_iter pd alpha sigma curr (nrm k) (u k) with
      | error e => rw [hp] at h; cases h
      | ok p =>
          rw [hp] at h
          dsimp only at h
          cases hrest : walk_loop pd alpha sigma nrm u p (k + 1) n with
          | error e => rw [hrest] at h; cases h
          | ok rest =>
              rw [hrest] at h
              dsimp only at h
              cases h
              obtain ⟨hlen, hchain⟩ :=
                walk_loop_spec pd alpha sigma nrm u n p (k + 1) rest hrest
              exact ⟨by simp [hlen], walk_iter_cases pd alpha sigma curr (nrm k) (u k) p hp, hchain⟩

/-- Helper: in a Metropolis chain, each recorded row is either the previous
row or the trial move away from it at the matching iteration index. -/
theorem chainFrom_consecutive (sigma : ℚ) (nrm : Nat → Nat → ℚ) :
    ∀ (l : List Config) (k : Nat) (c : Config), chainFrom sigma nrm k c l →
      ∀ (i : Nat) (h : i + 1 < l.length),
        l.get ⟨i + 1, h⟩ = l.get ⟨i, Nat.lt_of_succ_lt h⟩ ∨
        l.get ⟨i + 1, h⟩ = trial_move (l.get ⟨i, Nat.lt_of_succ_lt h⟩) sigma (nrm (k + i + 1))
  | [], _, _, _, i, h => absurd h (by simp)
  | [p], _, _, _, i, h => absurd h (by simp)
  | p :: q :: rest, k, c, hc, 0, h => by
      simpa using hc.2.1
  | p :: q :: rest, k, c, hc, i + 1, h => by
      have ih := chainFrom_consecutive sigma nrm (q :: rest) (k + 1) p hc.2 i
        (by simpa using Nat.lt_of_succ_lt_succ h)
      have harith : k + 1 + i + 1 = k + (i + 1) + 1 := by omega
      simpa [List.get, harith] using ih

/-- Helper: every row of a Metropolis chain has the dimension of its start. -/
theorem chainFrom_mem_length (sigma : ℚ) (nrm : Nat → Nat → ℚ) :
    ∀ (l : List Config) (k : Nat) (c : Config), chainFrom sigma nrm k c l →
      ∀ p ∈ l, p.length = c.length
  | [], _, _, _, p, hp => absurd hp (by simp)
  | q :: rest, k, c, hc, p, hp => by
      have hq : q.length = c.length := by
        rcases hc.1 with h | h
        · rw [h]
        · rw [h, trial_move_length]
      rcases List.mem_cons.mp hp with h | h
      · rw [h, hq]
      · rw [chainFrom_mem_length sigma nrm rest (k + 1) q hc.2 p h, hq]

/-- Helper: with the constant-one density the Metropolis ratio is `1`. -/
theorem acceptance_rate_const_one (alpha : List ℚ) (next_pt curr_pt : Config) :
    acceptance_rate const_one_density alpha next_pt curr_pt = .ok 1 := by
  norm_num [acceptance_rate, callDensity, const_one_density, pydiv]

/-- Helper: with the constant-one density a tuner batch never raises. -/
theorem tune_batch_const_one (alpha : List ℚ) (sigma : ℚ) (nrm : Nat → Nat → ℚ)
    (u : Nat → ℚ) :
    ∀ (n : Nat) (curr : Config) (total : ℚ) (k : Nat), ∃ r,
      tune_batch const_one_density alpha sigma nrm u curr total k n = .ok r
  | 0, curr, total, k => ⟨(curr, total), rfl⟩
  | n + 1, curr, total, k => by
      obtain ⟨r, hr⟩ := tune_batch_const_one alpha sigma nrm u n
        (if u k ≤ 1 then trial_move curr sigma (nrm k) else curr) (total + 1) (k + 1)
      exact ⟨r, by rw [tune_batch, acceptance_rate_const_one]; exact hr⟩

/-- Claim C1 (code_bug): the claim says the acceptance ratio divides two
evaluations of the density at the same `alpha`, but line 141 calls the
denominator as `prob_density(curr_point)` with `alpha` omitted: for every
density that is a strict two-parameter function (the documented contract),
`random_walker` raises `TypeError` in its first iteration. -/
theorem random_walker_missing_alpha (pd : Density) (alpha : List ℚ) (N_steps dim : Nat)
    (init_point : Config) (tm_sigma : ℚ) (nrm : Nat → Nat → ℚ) (u : Nat → ℚ)
    (hs : pd.strict = true) (hN : 1 ≤ N_steps) :
    random_walker pd alpha N_steps dim init_point tm_sigma nrm u = .error .typeError := by
  obtain ⟨n, rfl⟩ : ∃ n, N_steps = n + 1 := ⟨N_steps - 1, by omega⟩
  simp [random_walker, walk_loop, walk_iter, acceptance_rate, callDensity, hs]

/-- Witness for C1 at the module's own example density, with one step. -/
theorem random_walker_missing_alpha_witness :
    example_prob_density.strict = true ∧
    random_walker example_prob_density [1] 1 1 [0] 1 unit_normals zero_uniforms =
      .error .typeError :=
  ⟨rfl, random_walker_missing_alpha example_prob_density [1] 1 1 [0] 1 unit_normals
    zero_uniforms rfl (by norm_num)⟩

/-- Claim C2 (confirmed): in each iteration of `random_walker`, given the
computed rate and a uniform draw `u` in `[0,1)`, the body accepts (returns
the proposal) exactly when `u ≤ rate`, always accepts when `rate ≥ 1`, and
on rejection returns the unchanged current point. -/
theorem metropolis_accept_rule (pd : Density) (alpha : List ℚ) (sigma : ℚ)
    (curr : Config) (z : Nat → ℚ) (u rate : ℚ)
    (hr : acceptance_rate pd alpha (trial_move curr sigma z) curr = .ok rate)
    (h0 : 0 ≤ u) (h1 : u < 1) :
    walk_iter pd alpha sigma curr z u =
      .ok (if u ≤ rate then trial_move curr sigma z else curr) ∧
    (1 ≤ rate → walk_iter pd alpha sigma curr z u = .ok (trial_move curr sigma z)) ∧
    (¬ u ≤ rate → walk_iter pd alpha sigma curr z u = .ok curr) := by
  have hbase : walk_iter pd alpha sigma curr z u =
      .ok (if u ≤ rate then trial_move curr sigma z else curr) := by
    unfold walk_iter
    rw [hr]
  refine ⟨hbase, fun hrate => ?_, fun hrej => ?_⟩
  · rw [hbase, if_pos (le_trans (le_of_lt h1) hrate)]
  · rw [hbase, if_neg hrej]

/-- Witness for C2 at a concrete density, point and draws. -/
theorem metropolis_accept_rule_witness :
    walk_iter const_one_density [] 1 [0] (unit_normals 0) 0 =
      .ok (if (0 : ℚ) ≤ 1 then trial_move [0] 1 (unit_normals 0) else [0]) ∧
    ((1 : ℚ) ≤ 1 → walk_iter const_one_density [] 1 [0] (unit_normals 0) 0 =
      .ok (trial_move [0] 1 (unit_normals 0))) ∧
    (¬ (0 : ℚ) ≤ 1 → walk_iter const_one_density [] 1 [0] (unit_normals 0) 0 = .ok [0]) :=
  metropolis_accept_rule const_one_density [] 1 [0] (unit_normals 0) 0 1
    (acceptance_rate_const_one [] (trial_move [0] 1 (unit_normals 0)) [0])
    (by norm_num) (by norm_num)

/-- Claim C3 (confirmed): in every trajectory returned by `random_walker`,
each recorded row is either identical to the previous row (rejection) or is
the Gaussian trial move away from it drawn at that iteration (acceptance) —
never an arbitrary jump. -/
theorem random_walker_consecutive_rows (pd : Density) (alpha : List ℚ)
    (N_steps dim : Nat) (init_point : Config) (tm_sigma : ℚ)
    (nrm : Nat → Nat → ℚ) (u : Nat → ℚ) (steps : List Config)
    (hok : random_walker pd alpha N_steps dim init_point tm_sigma nrm u = .ok steps)
    (i : Nat) (h : i + 1 < steps.length) :
    steps.get ⟨i + 1, h⟩ = steps.get ⟨i, Nat.lt_of_succ_lt h⟩ ∨
    steps.get ⟨i + 1, h⟩ =
      trial_move (steps.get ⟨i, Nat.lt_of_succ_lt h⟩) tm_sigma (nrm (i + 1)) := by
  unfold random_walker at hok
  by_cases hN : N_steps = 0
  · rw [if_pos hN] at hok
    cases hok
  · rw [if_neg hN] at hok
    obtain ⟨-, hchain⟩ :=
      walk_loop_spec pd alpha tm_sigma nrm u N_steps init_point 0 steps hok
    have hc := chainFrom_consecutive tm_sigma nrm steps 0 init_point hchain i h
    simpa using hc

/-- Witness for C3 on a concrete two-step trajectory. -/
theorem random_walker_consecutive_rows_witness :
    ([[1], [2]] : List Config).get ⟨1, by norm_num⟩ =
      ([[1], [2]] : List Config).get ⟨0, by norm_num⟩ ∨
    ([[1], [2]] : List Config).get ⟨1, by norm_num⟩ =
      trial_move (([[1], [2]] : List Config).get ⟨0, by norm_num⟩) 1 (unit_normals 1) :=
  random_walker_consecutive_rows const_one_density [] 2 1 [0] 1 unit_normals zero_uniforms
    [[1], [2]]
    (by norm_num [random_walker, walk_loop, walk_iter, acceptance_rate, callDensity,
      const_one_density, pydiv, trial_move, trial_move_from, unit_normals, zero_uniforms])
    0 (by norm_num)

/-- Counterexample to C4: with the constant-one density, all standard-normal
draws `1` and uniform draws `0`, `random_walker` with `N_steps = 1` and
`init_point = [0]` returns the trajectory `[[1]]`, whose first element is
not `init_point` — iteration `i = 0` overwrites `steps[0]` with the accepted
first proposal. -/
theorem random_walker_first_row_not_init :
    random_walker const_one_density [] 1 1 [0] 1 unit_normals zero_uniforms = .ok [[1]] ∧
    ([[1]] : List Config).head? ≠ some ([0] : Config) := by
  constructor
  · norm_num [random_walker, walk_loop, walk_iter, acceptance_rate, callDensity,
      const_one_density, pydiv, trial_move, trial_move_from, unit_normals, zero_uniforms]
  · norm_num

/-- Claim C4 (amended): a returned trajectory has exactly `N_steps` rows of
dimension `dim`, and its first element is the outcome of the first
Metropolis iteration — `init_point` on rejection or the first Gaussian
proposal on acceptance — not always `init_point`. -/
theorem random_walker_shape_head (pd : Density) (alpha : List ℚ)
    (N_steps dim : Nat) (init_point : Config) (tm_sigma : ℚ)
    (nrm : Nat → Nat → ℚ) (u : Nat → ℚ) (steps : List Config)
    (hok : random_walker pd alpha N_steps dim init_point tm_sigma nrm u = .ok steps)
    (hd : init_point.length = dim) :
    steps.length = N_steps ∧ (∀ r ∈ steps, r.length = dim) ∧
    (steps.head? = some init_point ∨
     steps.head? = some (trial_move init_point tm_sigma (nrm 0))) := by
  unfold random_walker at hok
  by_cases hN : N_steps = 0
  · rw [if_pos hN] at hok
    cases hok
  · rw [if_neg hN] at hok
    obtain ⟨hlen, hchain⟩ :=
      walk_loop_spec pd alpha tm_sigma nrm u N_steps init_point 0 steps hok
    refine ⟨hlen, fun r hr => by
      rw [chainFrom_mem_length tm_sigma nrm steps 0 init_point hchain r hr, hd], ?_⟩
    cases steps with
    | nil =>
        simp at hlen
        exact absurd hlen.symm hN
    | cons p rest =>
        rcases hchain.1 with h | h
        · left
          simp [h]
        · right
          simp [h]

/-- Witness for the amended C4 on a concrete one-step trajectory. -/
theorem random_walker_shape_head_witness :
    ([[1]] : List Config).length = 1 ∧ (∀ r ∈ ([[1]] : List Config), r.length = 1) ∧
    (([[1]] : List Config).head? = some ([0] : Config) ∨
     ([[1]] : List Config).head? = some (trial_move [0] 1 (unit_normals 0))) :=
  random_walker_shape_head const_one_density [] 1 1 [0] 1 unit_normals zero_uniforms [[1]]
    (by norm_num [random_walker, walk_loop, walk_iter, acceptance_rate, callDensity,
      const_one_density, pydiv, trial_move, trial_move_from, unit_normals, zero_uniforms])
    rfl

/-- Claim C5 (code_bug): `MC_integration` is a stub — it returns `None` for
every input, so it neither returns an `(estimate, stderr)` pair nor raises
an InvalidArgument-class error when `N_skip ≥ N_steps`. -/
theorem MC_integration_stub_none (E_local_f prob_density : Density) (alpha : List ℚ)
    (N_steps N_walkers N_skip : Nat) (L_start : ℚ) :
    MC_integration E_local_f prob_density alpha N_steps N_walkers N_skip L_start = none :=
  rfl

/-- Claim C6 (code_bug): `find_optimal_tm_sigma` never performs the claimed
sigma adjustment: with a benign constant-one density it raises `TypeError`
at the end of the first batch, because the branch condition applies `&` to
two floats (and both adjustment branches would set sigma to `0` anyway). -/
theorem find_optimal_tm_sigma_crashes (alpha : List ℚ) (dim : Nat) (tm_sigma_init : ℚ)
    (Niter : Nat) (tol : ℚ) (nrm : Nat → Nat → ℚ) (u : Nat → ℚ) (hN : 1 ≤ Niter) :
    find_optimal_tm_sigma const_one_density alpha dim tm_sigma_init Niter tol nrm u =
      .error .typeError := by
  obtain ⟨n, rfl⟩ : ∃ n, Niter = n + 1 := ⟨Niter - 1, by omega⟩
  unfold find_optimal_tm_sigma tune_loop
  obtain ⟨r, hr⟩ :=
    tune_batch_const_one alpha tm_sigma_init nrm u 100 (List.replicate dim 0) 0 0
  obtain ⟨c2, t2⟩ := r
  rw [hr]
  simp [pyFloatAnd]

/-- Witness for C6 at a concrete budget of one batch. -/
theorem find_optimal_tm_sigma_crashes_witness :
    find_optimal_tm_sigma const_one_density [] 0 1 1 (1 / 20) unit_normals zero_uniforms =
      .error .typeError :=
  find_optimal_tm_sigma_crashes [] 0 1 1 (1 / 20) unit_normals zero_uniforms (by norm_num)

/-- Claim C7 (confirmed): if the density call at the walker's current point
succeeds and returns `0`, the division on line 141 raises
`ZeroDivisionError`, which propagates out of `random_walker` instead of
being swallowed or treated as a rejection. -/
theorem random_walker_zero_density_div_error (pd : Density) (alpha : List ℚ)
    (N_steps dim : Nat) (init_point : Config) (tm_sigma : ℚ)
    (nrm : Nat → Nat → ℚ) (u : Nat → ℚ)
    (hz : callDensity pd init_point none = .ok 0) (hN : 1 ≤ N_steps) :
    random_walker pd alpha N_steps dim init_point tm_sigma nrm u =
      .error .zeroDivisionError := by
  obtain ⟨n, rfl⟩ : ∃ n, N_steps = n + 1 := ⟨N_steps - 1, by omega⟩
  have hnum : ∀ (r : Config) (a : List ℚ), callDensity pd r (some a) = .ok (pd.f r (some a)) :=
    fun _ _ => rfl
  simp [random_walker, walk_loop, walk_iter, acceptance_rate, hnum, hz, pydiv]

/-- Witness for C7 at a density that accepts the call and returns `0`. -/
theorem random_walker_zero_density_div_error_witness :
    random_walker zero_density [] 1 1 [0] 1 unit_normals zero_uniforms =
      .error .zeroDivisionError :=
  random_walker_zero_density_div_error zero_density [] 1 1 [0] 1 unit_normals zero_uniforms
    rfl (by norm_num)

/-- Claim C8 (confirmed): `rand_init_point(system_size, dim)` returns exactly
`dim` coordinates, each an independent mean-zero Gaussian draw scaled by
`system_size` (coordinate `i` is `system_size * z i` over the
standard-normal oracle stream `z`). -/
theorem rand_init_point_spec (system_size : ℚ) (dim : Nat) (z : Nat → ℚ) :
    (rand_init_point system_size dim z).length = dim ∧
    ∀ i, i < dim → (rand_init_point system_size dim z)[i]? = some (system_size * z i) := by
  constructor
  · simp [rand_init_point]
  · intro i hi
    simp [rand_init_point, List.getElem?_map, List.getElem?_range, hi]

/-- Witness for C8 at concrete size and dimension. -/
theorem rand_init_point_spec_witness :
    (rand_init_point 2 3 one_stream)[1]? = some (2 * one_stream 1) :=
  (rand_init_point_spec 2 3 one_stream).2 1 (by norm_num)

/-- Claim C9 (confirmed): for an `Optimizer` whose method string is neither
"scan" nor "steepest_descent", one call to `update_alpha` raises nothing,
leaves `alpha` unchanged and sets `converged` to `True`, silently
terminating the optimization. -/
theorem update_alpha_unknown_method (o : Optimizer) (h1 : o.method ≠ "scan")
    (h2 : o.method ≠ "steepest_descent") :
    o.update_alpha = .ok ⟨o.method, true, o.alpha⟩ := by
  simp [Optimizer.update_alpha, h1, h2]

/-- Witness for C9 at a concrete unrecognized method string. -/
theorem update_alpha_unknown_method_witness :
    opt_example.update_alpha = .ok ⟨opt_example.method, true, opt_example.alpha⟩ :=
  update_alpha_unknown_method opt_example (by decide) (by decide)

/-- Claim C10 (confirmed): for `N_steps = 0` the write `steps[0] = init_point`
raises `IndexError` on the empty row array, before any density evaluation or
random draw (the result does not depend on the density or the streams). -/
theorem random_walker_zero_steps_index_error (pd : Density) (alpha : List ℚ) (dim : Nat)
    (init_point : Config) (tm_sigma : ℚ) (nrm : Nat → Nat → ℚ) (u : Nat → ℚ) :
    random_walker pd alpha 0 dim init_point tm_sigma nrm u = .error .indexError :=
  rfl
